import Mathlib

/-!
Verification of the NYC Transit Weather Analytics pipeline.

Shallow embedding of the repository:
* `src/etl pipeline/main_pipeline.py` — the `ETLPipeline` orchestrator
  (`pipelineRun` below), its metrics record and the CLI `main`.
* `src/etl pipeline/app.py` — the dashboard's `load_data` (cache branch and
  derived calendar columns).
* The Transformer (`data_transformation.py`) and the Extractor/Loader modules
  are not part of the sources available here; the Transformer's
  `transform_and_merge` and `get_quality_report` are modelled from the spec
  (each such definition says so in its doc comment), and the Extractor/Loader
  are treated as an environment of the orchestrator, exactly as the spec
  treats them (external collaborators specified at the interface boundary).

Dates carried by data rows are structured calendar dates (year, month, day).
Date *strings* handled by the orchestrator's range-resolution code
(lines 66-69 of main_pipeline.py) are modelled as integers counting days,
which is faithful for that code: `strftime("%Y-%m-%d")` is injective on days
and `timedelta(days=365)` subtracts 365 days.  Durations, quality scores and
success rates are exact rationals; the Python `round(x, 2)` applied for
display before storing is floating-point presentation precision and is
omitted from the embedding.
-/

namespace NycTransit

/-- A calendar date as the data rows carry it (pandas datetime, day grain). -/
structure Date where
  year : Nat
  month : Nat
  day : Nat
deriving DecidableEq, Repr

/-- English month name, as `strftime("%B")` produces (app.py line 54). -/
def monthName : Nat → String
  | 1 => "January" | 2 => "February" | 3 => "March" | 4 => "April"
  | 5 => "May" | 6 => "June" | 7 => "July" | 8 => "August"
  | 9 => "September" | 10 => "October" | 11 => "November" | 12 => "December"
  | _ => ""

/-- Day-of-week index, 0 = Sunday, by Sakamoto's method over the proleptic
Gregorian calendar (the calendar pandas `day_name()` uses). -/
def dayOfWeekIndex (d : Date) : Nat :=
  let t : List Nat := [0, 3, 2, 5, 0, 3, 5, 1, 4, 6, 2, 4]
  let y := if d.month < 3 then d.year - 1 else d.year
  (y + y / 4 - y / 100 + y / 400 + t.getD (d.month - 1) 0 + d.day) % 7

/-- English day name, as pandas `day_name()` produces (app.py line 55). -/
def dayName (d : Date) : String :=
  match dayOfWeekIndex d with
  | 0 => "Sunday" | 1 => "Monday" | 2 => "Tuesday" | 3 => "Wednesday"
  | 4 => "Thursday" | 5 => "Friday" | _ => "Saturday"

/-- Zero-padded two-digit month. -/
def pad2 (n : Nat) : String :=
  if n < 10 then "0" ++ toString n else toString n

/-- The string "YYYY-MM", the form of a pandas monthly period (app.py line 56). -/
def yearMonthStr (d : Date) : String :=
  toString d.year ++ "-" ++ pad2 d.month

/-- A raw ridership row as delivered by the Extractor.  `date = none` models
an unparsable date value; `ridership = none` a missing count (spec §3). -/
structure RidershipRow where
  date : Option Date
  ridership : Option Int
deriving DecidableEq, Repr

/-- A raw weather row as delivered by the Extractor (spec §3). -/
structure WeatherRow where
  date : Option Date
  temperature_mean : Option ℚ
  precipitation : Option ℚ
deriving DecidableEq, Repr

/-- One row of the canonical merged table (spec §3, MergedRecord): date,
the three data columns, and the five derived calendar columns. -/
structure MergedRow where
  date : Date
  ridership : Option Int
  temperature_mean : Option ℚ
  precipitation : Option ℚ
  year : Nat
  month : Nat
  month_name : String
  day_name : String
  year_month : String
deriving DecidableEq, Repr

/-- Number of columns of the merged table (the nine MergedRow fields). -/
def mergedColumns : Nat := 9

/-- Build a merged row, deriving the calendar fields purely from the date. -/
def mkMerged (d : Date) (rid : Option Int) (t p : Option ℚ) : MergedRow :=
  { date := d, ridership := rid, temperature_mean := t, precipitation := p,
    year := d.year, month := d.month, month_name := monthName d.month,
    day_name := dayName d, year_month := yearMonthStr d }

/-- Modelled from the spec: per-source date cleaning (spec §4.1 step 1) of the
missing `data_transformation.py` — rows with invalid (unparsable) dates are
dropped, the rest keep their payload. -/
def cleanRidership (rows : List RidershipRow) : List (Date × Option Int) :=
  rows.filterMap fun r => r.date.map fun d => (d, r.ridership)

/-- Modelled from the spec: weather-side date cleaning (spec §4.1 step 1) of
the missing `data_transformation.py`. -/
def cleanWeather (rows : List WeatherRow) :
    List (Date × (Option ℚ × Option ℚ)) :=
  rows.filterMap fun r =>
    r.date.map fun d => (d, (r.temperature_mean, r.precipitation))

/-- Drop exact-duplicate dates keeping the first occurrence (spec §4.1
step 1), threading the set of dates already seen. -/
def dedupFirstAux {α : Type} (seen : List Date) :
    List (Date × α) → List (Date × α)
  | [] => []
  | x :: xs =>
    if x.1 ∈ seen then dedupFirstAux seen xs
    else x :: dedupFirstAux (x.1 :: seen) xs

/-- Drop exact-duplicate dates, keeping the first occurrence per date. -/
def dedupFirst {α : Type} (l : List (Date × α)) : List (Date × α) :=
  dedupFirstAux [] l

/-- Modelled from the spec: `transform_and_merge` of the missing
`data_transformation.py` (spec §4.1): clean and deduplicate both sources,
then take the cleaned ridership dates as the merge key and left-join weather
onto them — a ridership date absent from weather yields null weather fields,
a weather-only date contributes nothing (spec §4.1 step 2); derived calendar
fields are computed purely from the date (step 3). -/
def transform_and_merge (r : List RidershipRow) (w : List WeatherRow) :
    List MergedRow :=
  let rc := dedupFirst (cleanRidership r)
  let wc := dedupFirst (cleanWeather w)
  rc.map fun p =>
    match wc.find? (fun q => q.1 = p.1) with
    | some q => mkMerged p.1 p.2 q.2.1 q.2.2
    | none => mkMerged p.1 p.2 none none

/-- Count of null cells of the merged table: only the three nullable data
columns can hold a null (`merged_df.isnull().sum().sum()`, line 147). -/
def nullCount (l : List MergedRow) : Nat :=
  (l.map fun m =>
    (if m.ridership.isNone then 1 else 0)
      + (if m.temperature_mean.isNone then 1 else 0)
      + (if m.precipitation.isNone then 1 else 0)).sum

/-- The quality report: dataset name to metric name to value (spec §3). -/
structure QualityReport where
  entries : List (String × List (String × Int))
deriving DecidableEq, Repr

/-- Modelled from the spec: the report of a freshly constructed Transformer,
before `transform_and_merge` was ever invoked — "created empty at Transformer
construction" (spec §3, QualityReport lifecycle); `data_transformation.py`
is not among the sources. -/
def emptyQualityReport : QualityReport := ⟨[]⟩

/-- Modelled from the spec: the report `get_quality_report` returns after one
`transform_and_merge` call on these inputs (spec §4.1 step 4): per source and
for the merged output, row counts, duplicate counts removed, null counts. -/
def qualityReportOf (r : List RidershipRow) (w : List WeatherRow) :
    QualityReport :=
  let rc := dedupFirst (cleanRidership r)
  let wc := dedupFirst (cleanWeather w)
  let merged := transform_and_merge r w
  ⟨[("ridership",
      [("raw_rows", (r.length : Int)),
       ("cleaned_rows", (rc.length : Int)),
       ("duplicates_removed", ((cleanRidership r).length : Int) - rc.length)]),
    ("weather",
      [("raw_rows", (w.length : Int)),
       ("cleaned_rows", (wc.length : Int)),
       ("duplicates_removed", ((cleanWeather w).length : Int) - wc.length)]),
    ("merged",
      [("rows", (merged.length : Int)),
       ("null_cells", (nullCount merged : Int))])]⟩

/-- Run status (main_pipeline.py `pipeline_metrics['status']`). -/
inductive Status where
  | NOT_STARTED
  | RUNNING
  | SUCCESS
  | FAILED
deriving DecidableEq, Repr

/-- The `pipeline_metrics['transformation']` entry (lines 104-109). -/
structure TransformationMetrics where
  output_records : Nat
  output_columns : Nat
  duration_seconds : ℚ
  quality_metrics : QualityReport
deriving DecidableEq, Repr

/-- The `pipeline_metrics['loading']` entry (lines 135-141). -/
structure LoadingMetrics where
  csv_path : String
  summary_path : String
  database_success : Bool
  duration_seconds : ℚ
deriving DecidableEq, Repr

/-- The orchestrator's metrics dictionary.  `none` in an `Option` field means
the corresponding key has not been written; the code never writes an
`extraction` entry, which the `extraction` field makes observable. -/
structure PipelineMetrics where
  status : Status
  records_processed : Nat
  errors : List String
  extraction : Option ℚ
  transformation : Option TransformationMetrics
  loading : Option LoadingMetrics
  total_duration_seconds : Option ℚ
  quality_score : Option ℚ
  success_rate : Option ℚ
deriving DecidableEq, Repr

/-- Metrics as first set up by `__init__` and the start of `run`
(lines 38-44 and 59-60): status RUNNING, nothing else recorded. -/
def initialMetrics : PipelineMetrics :=
  { status := Status.RUNNING, records_processed := 0, errors := [],
    extraction := none, transformation := none, loading := none,
    total_duration_seconds := none, quality_score := none,
    success_rate := none }

/-- Path of the metrics snapshot written by `_save_pipeline_metrics`
(lines 179-180), derived from the save-time timestamp string. -/
def metricsPath (timestamp : String) : String :=
  "data/processed/pipeline_metrics_" ++ timestamp ++ ".json"

/-- The environment of one orchestrator run: the external collaborators
(Extractor and Loader behaviours), the wall clock and the measured phase
durations.  Dates at this boundary are day numbers (see the file header).
`csvSaveFails` models `save_to_csv` raising (an unclassified exception,
spec §7); `s3UploadFails` models `upload_to_s3` raising; `postgresSuccess`
is the boolean `load_to_postgres` returns. -/
structure Env where
  now : Int
  fetchRidership : Int → Int → List RidershipRow
  fetchWeather : Int → Int → List WeatherRow
  csvSaveFails : Bool
  csvError : String
  s3UploadFails : Bool
  postgresSuccess : Bool
  transformDuration : ℚ
  loadDuration : ℚ
  timestampStr : String

/-- Everything one `ETLPipeline.run` call makes observable: the returned
dictionary (status, error, data, metrics), the metrics snapshots written by
`_save_pipeline_metrics`, the CSV files written, the S3 keys uploaded, and
the resolved date range the Extractor was called with. -/
structure RunResult where
  status : Status
  error : Option String
  data : Option (List MergedRow)
  metrics : PipelineMetrics
  savedMetrics : List (String × PipelineMetrics)
  savedCsv : List String
  s3Uploads : List String
  resolvedRange : Int × Int
deriving Repr

/-- The `except` branch of `run` (lines 165-174): record FAILED with the
single error entry, save the metrics snapshot, return the FAILED dict. -/
def failResult (env : Env) (m : PipelineMetrics) (msg : String)
    (range : Int × Int) (csvs : List String) (s3 : List String) : RunResult :=
  let m2 := { m with status := Status.FAILED, errors := [msg] }
  { status := Status.FAILED, error := some msg, data := none, metrics := m2,
    savedMetrics := [(metricsPath env.timestampStr, m2)], savedCsv := csvs,
    s3Uploads := s3, resolvedRange := range }

/-- The method `ETLPipeline.run` (main_pipeline.py lines 46-174).  Phase by phase:
resolve the date range (66-69; a missing end is the current date, a missing
start is the current date minus 365 days), extraction with fatal-on-empty
checks (80-93), transformation with fatal-on-empty (100-109), loading
(114-141: local CSVs, best-effort S3 inside its own try/except, optional
database load), metrics (146-159), snapshot save and return (161-174).
`extraction_time` is the line 55 initialisation: the code never updates
it, so it stays 0 in the total. -/
def pipelineRun (env : Env) (start_date end_date : Option Int)
    (save_to_db : Bool) : RunResult :=
  let e := end_date.getD env.now
  let s := start_date.getD (env.now - 365)
  let range := (s, e)
  let extraction_time : ℚ := 0
  let m0 := initialMetrics
  let ridership := env.fetchRidership s e
  if ridership.isEmpty then
    failResult env m0 "No ridership data extracted" range [] []
  else
    let weather := env.fetchWeather s e
    if weather.isEmpty then
      failResult env m0 "No weather data extracted" range [] []
    else
      let merged := transform_and_merge ridership weather
      if merged.isEmpty then
        failResult env m0 "Transformation resulted in empty dataset" range [] []
      else
        let tMetrics : TransformationMetrics :=
          { output_records := merged.length,
            output_columns := mergedColumns,
            duration_seconds := env.transformDuration,
            quality_metrics := qualityReportOf ridership weather }
        let m1 := { m0 with transformation := some tMetrics }
        if env.csvSaveFails then
          failResult env m1 env.csvError range [] []
        else
          let csv_path := "transit_weather_" ++ env.timestampStr ++ ".csv"
          let summary_path := "summary_stats_" ++ env.timestampStr ++ ".csv"
          let s3 := if env.s3UploadFails then [] else
            ["transit_weather/" ++ csv_path, "transit_weather/" ++ summary_path]
          let db_success := save_to_db && env.postgresSuccess
          let lMetrics : LoadingMetrics :=
            { csv_path := csv_path, summary_path := summary_path,
              database_success := db_success,
              duration_seconds := env.loadDuration }
          let m2 := { m1 with loading := some lMetrics }
          let total_time := extraction_time + env.transformDuration
            + env.loadDuration
          let null_count := nullCount merged
          let total_cells := mergedColumns * merged.length
          let quality_score : ℚ :=
            if total_cells > 0 then
              (1 - (null_count : ℚ) / (total_cells : ℚ)) * 100
            else 0
          let success_rate : ℚ :=
            ((merged.length : ℚ)
              / ((max ridership.length weather.length : Nat) : ℚ)) * 100
          let m3 :=
            { m2 with
              status := Status.SUCCESS
              records_processed := merged.length
              total_duration_seconds := some total_time
              quality_score := some quality_score
              success_rate := some success_rate }
          { status := Status.SUCCESS, error := none, data := some merged,
            metrics := m3,
            savedMetrics := [(metricsPath env.timestampStr, m3)],
            savedCsv := [csv_path, summary_path], s3Uploads := s3,
            resolvedRange := range }

/-- app.py lines 52-56: recompute the five filter-friendly calendar columns
of the served table purely from each row's date, overwriting whatever the
row carried. -/
def addDerivedFields (rows : List MergedRow) : List MergedRow :=
  rows.map fun m =>
    { m with
      year := m.date.year
      month := m.date.month
      month_name := monthName m.date.month
      day_name := dayName m.date
      year_month := yearMonthStr m.date }

/-- app.py `load_data` (lines 15-58).  A fresh `DataTransformer` is
constructed first (line 18).  If the cached Parquet exists, the merged table
is read from it and the quality report is taken from that fresh transformer,
on which `transform_and_merge` was never invoked (lines 21-24); otherwise
data is fetched, merged, cached, and the report read after the merge
(lines 26-49).  Either way the derived calendar columns are recomputed from
the date (lines 52-56).  `cached` is the content of `merged_data.parquet`
when `cacheExists`; `ridership`/`weather` are what the Extractor would
return for the hard-coded 2023-01-01..2024-12-31 range. -/
def load_data (cacheExists : Bool) (cached : List MergedRow)
    (ridership : List RidershipRow) (weather : List WeatherRow) :
    List MergedRow × QualityReport :=
  if cacheExists then
    (addDerivedFields cached, emptyQualityReport)
  else
    let merged := transform_and_merge ridership weather
    (addDerivedFields merged, qualityReportOf ridership weather)

/-- The parsed CLI arguments (main_pipeline.py lines 186-191). -/
structure CliArgs where
  start_date : Option Int
  end_date : Option Int
  no_db : Bool

/-- What `main` makes observable: the process exit code and the printed
summary lines. -/
structure CliOutput where
  exitCode : Nat
  printed : List String
deriving DecidableEq, Repr

/-- The CLI entry `main` (main_pipeline.py lines 194-213): run the pipeline with the
parsed arguments (`save_to_db = not args.no_db`), print the SUCCESS summary
and exit 0, or print the failure summary with the error message and
exit 1. -/
def mainModel (env : Env) (args : CliArgs) : CliOutput :=
  let result := pipelineRun env args.start_date args.end_date (!args.no_db)
  if result.status = Status.SUCCESS then
    { exitCode := 0,
      printed :=
        ["PIPELINE EXECUTION SUMMARY",
         "Status: SUCCESS",
         "Records Processed: " ++ toString result.metrics.records_processed,
         "Total Time: "
           ++ toString (result.metrics.total_duration_seconds.getD 0)
           ++ " seconds",
         "Quality Score: "
           ++ toString (result.metrics.quality_score.getD 0) ++ "%"] }
  else
    { exitCode := 1,
      printed :=
        ["PIPELINE FAILED",
         "Error: " ++ result.error.getD "Unknown error"] }

/-- The run-level quality score in the spec's words (spec §4.2 Metrics):
`(1 − total_null_cells / total_cells) × 100` over the merged table, 0 when
the table has no cells.  Stated from the spec, to be compared with what the
orchestrator records. -/
def specQualityScore (merged : List MergedRow) : ℚ :=
  let total_cells := mergedColumns * merged.length
  if total_cells > 0 then
    (1 - (nullCount merged : ℚ) / (total_cells : ℚ)) * 100
  else 0

/-- The run-level success rate in the spec's words (spec §4.2 Metrics):
`len(merged) / max(len(ridership_input), len(weather_input)) × 100`.
Stated from the spec, to be compared with what the orchestrator records. -/
def specSuccessRate (nRidership nWeather nMerged : Nat) : ℚ :=
  ((nMerged : ℚ) / ((max nRidership nWeather : Nat) : ℚ)) * 100

/-! Sample data and environments used by witnesses -/

/-- Sample ridership input (spec §8 scenario A). -/
def sampleR : List RidershipRow :=
  [⟨some ⟨2024, 1, 1⟩, some 100⟩, ⟨some ⟨2024, 1, 2⟩, some 200⟩]

/-- Sample weather input (spec §8 scenario A). -/
def sampleW : List WeatherRow := [⟨some ⟨2024, 1, 1⟩, some 5, some 0⟩]

/-- A sample environment whose run succeeds. -/
def envA : Env :=
  { now := 20000, fetchRidership := fun _ _ => sampleR,
    fetchWeather := fun _ _ => sampleW, csvSaveFails := false,
    csvError := "csv write failed", s3UploadFails := false,
    postgresSuccess := true, transformDuration := 2, loadDuration := 3,
    timestampStr := "20240101_120000" }

/-- Environment `envA` with an empty ridership extraction. -/
def envEmptyRidership : Env := { envA with fetchRidership := fun _ _ => [] }

/-- Environment `envA` with the S3 upload raising and the database load returning
false (spec §8 scenario C). -/
def envPgFail : Env :=
  { envA with s3UploadFails := true, postgresSuccess := false }

/-- A cached merged row whose stored calendar fields all disagree with its
date, as could sit in a stale `merged_data.parquet`. -/
def staleCachedRow : MergedRow :=
  { date := ⟨2024, 1, 1⟩, ridership := some 1, temperature_mean := none,
    precipitation := none, year := 1999, month := 12, month_name := "x",
    day_name := "y", year_month := "z" }

/-- The row `staleCachedRow` after app.py recomputes the calendar columns. -/
def refreshedRow : MergedRow :=
  { date := ⟨2024, 1, 1⟩, ridership := some 1, temperature_mean := none,
    precipitation := none, year := 2024, month := 1,
    month_name := "January", day_name := "Monday", year_month := "2024-01" }

/-! Helper lemmas -/

theorem mem_dedupFirstAux {α : Type} {seen : List Date}
    {l : List (Date × α)} {x : Date × α}
    (hx : x ∈ dedupFirstAux seen l) : x ∈ l := by
  induction l generalizing seen with
  | nil => simp [dedupFirstAux] at hx
  | cons y ys ih =>
    by_cases hy : y.1 ∈ seen
    · simp only [dedupFirstAux, if_pos hy] at hx
      exact List.mem_cons_of_mem _ (ih hx)
    · simp only [dedupFirstAux, if_neg hy, List.mem_cons] at hx
      rcases hx with h | h
      · exact h ▸ List.mem_cons_self _ _
      · exact List.mem_cons_of_mem _ (ih h)

theorem fst_mem_dedupFirstAux {α : Type} {seen : List Date}
    {l : List (Date × α)} {d : Date}
    (hd : d ∈ l.map Prod.fst) (hseen : d ∉ seen) :
    d ∈ (dedupFirstAux seen l).map Prod.fst := by
  induction l generalizing seen with
  | nil => simp at hd
  | cons y ys ih =>
    simp only [List.map_cons, List.mem_cons] at hd
    by_cases hy : y.1 ∈ seen
    · simp only [dedupFirstAux, if_pos hy]
      rcases hd with h | h
      · exact absurd (h ▸ hy) hseen
      · exact ih h hseen
    · simp only [dedupFirstAux, if_neg hy, List.map_cons, List.mem_cons]
      rcases hd with h | h
      · exact Or.inl h
      · by_cases hdy : d = y.1
        · exact Or.inl hdy
        · exact Or.inr (ih h (by simp [hdy, hseen]))

theorem mem_dedupFirst {α : Type} {l : List (Date × α)} {x : Date × α}
    (hx : x ∈ dedupFirst l) : x ∈ l :=
  mem_dedupFirstAux hx

theorem fst_mem_dedupFirst {α : Type} {l : List (Date × α)} {d : Date}
    (hd : d ∈ l.map Prod.fst) : d ∈ (dedupFirst l).map Prod.fst :=
  fst_mem_dedupFirstAux hd (by simp)

theorem mem_cleanRidership {r : List RidershipRow} {p : Date × Option Int}
    (hp : p ∈ cleanRidership r) : ∃ row ∈ r, row.date = some p.1 := by
  simp only [cleanRidership, List.mem_filterMap] at hp
  rcases hp with ⟨row, hrow, hmap⟩
  cases hdate : row.date with
  | none => rw [hdate] at hmap; simp at hmap
  | some d =>
    rw [hdate] at hmap
    simp only [Option.map_some', Option.some.injEq] at hmap
    exact ⟨row, hrow, by rw [hdate, ← hmap]⟩

theorem mem_cleanWeather {w : List WeatherRow}
    {q : Date × (Option ℚ × Option ℚ)} (hq : q ∈ cleanWeather w) :
    ∃ row ∈ w, row.date = some q.1 := by
  simp only [cleanWeather, List.mem_filterMap] at hq
  rcases hq with ⟨row, hrow, hmap⟩
  cases hdate : row.date with
  | none => rw [hdate] at hmap; simp at hmap
  | some d =>
    rw [hdate] at hmap
    simp only [Option.map_some', Option.some.injEq] at hmap
    exact ⟨row, hrow, by rw [hdate, ← hmap]⟩

theorem date_mkMerged (d : Date) (rid : Option Int) (t p : Option ℚ) :
    (mkMerged d rid t p).date = d := rfl

theorem mem_transform_date {r : List RidershipRow} {w : List WeatherRow}
    {m : MergedRow} (hm : m ∈ transform_and_merge r w) :
    ∃ row ∈ r, row.date = some m.date := by
  simp only [transform_and_merge, List.mem_map] at hm
  rcases hm with ⟨p, hp, hpm⟩
  have hdate : m.date = p.1 := by
    cases hfind : (dedupFirst (cleanWeather w)).find? (fun q => q.1 = p.1) with
    | none => rw [← hpm, hfind]; rfl
    | some q => rw [← hpm, hfind]; rfl
  exact hdate ▸ mem_cleanRidership (mem_dedupFirst hp)

theorem pipelineRun_resolvedRange (env : Env) (sd ed : Option Int)
    (db : Bool) :
    (pipelineRun env sd ed db).resolvedRange
      = (sd.getD (env.now - 365), ed.getD env.now) := by
  by_cases h1 : (env.fetchRidership (sd.getD (env.now - 365))
      (ed.getD env.now)).isEmpty
  · simp [pipelineRun, failResult, h1]
  · by_cases h2 : (env.fetchWeather (sd.getD (env.now - 365))
        (ed.getD env.now)).isEmpty
    · simp [pipelineRun, failResult, h1, h2]
    · by_cases h3 : (transform_and_merge
          (env.fetchRidership (sd.getD (env.now - 365)) (ed.getD env.now))
          (env.fetchWeather (sd.getD (env.now - 365))
            (ed.getD env.now))).isEmpty
      · simp [pipelineRun, failResult, h1, h2, h3]
      · by_cases h4 : env.csvSaveFails
        · simp [pipelineRun, failResult, h1, h2, h3, h4]
        · simp [pipelineRun, failResult, h1, h2, h3, h4]

theorem pipelineRun_status (env : Env) (sd ed : Option Int) (db : Bool) :
    (pipelineRun env sd ed db).status = Status.SUCCESS
      ∨ (pipelineRun env sd ed db).status = Status.FAILED := by
  by_cases h1 : (env.fetchRidership (sd.getD (env.now - 365))
      (ed.getD env.now)).isEmpty
  · simp [pipelineRun, failResult, h1]
  · by_cases h2 : (env.fetchWeather (sd.getD (env.now - 365))
        (ed.getD env.now)).isEmpty
    · simp [pipelineRun, failResult, h1, h2]
    · by_cases h3 : (transform_and_merge
          (env.fetchRidership (sd.getD (env.now - 365)) (ed.getD env.now))
          (env.fetchWeather (sd.getD (env.now - 365))
            (ed.getD env.now))).isEmpty
      · simp [pipelineRun, failResult, h1, h2, h3]
      · by_cases h4 : env.csvSaveFails
        · simp [pipelineRun, failResult, h1, h2, h3, h4]
        · simp [pipelineRun, failResult, h1, h2, h3, h4]

theorem pipelineRun_saved (env : Env) (sd ed : Option Int) (db : Bool) :
    (pipelineRun env sd ed db).savedMetrics
      = [(metricsPath env.timestampStr, (pipelineRun env sd ed db).metrics)]
    ∧ (pipelineRun env sd ed db).metrics.status
      = (pipelineRun env sd ed db).status := by
  by_cases h1 : (env.fetchRidership (sd.getD (env.now - 365))
      (ed.getD env.now)).isEmpty
  · simp [pipelineRun, failResult, h1]
  · by_cases h2 : (env.fetchWeather (sd.getD (env.now - 365))
        (ed.getD env.now)).isEmpty
    · simp [pipelineRun, failResult, h1, h2]
    · by_cases h3 : (transform_and_merge
          (env.fetchRidership (sd.getD (env.now - 365)) (ed.getD env.now))
          (env.fetchWeather (sd.getD (env.now - 365))
            (ed.getD env.now))).isEmpty
      · simp [pipelineRun, failResult, h1, h2, h3]
      · by_cases h4 : env.csvSaveFails
        · simp [pipelineRun, failResult, h1, h2, h3, h4]
        · simp [pipelineRun, failResult, h1, h2, h3, h4]

theorem metricsPath_injective {t1 t2 : String} (h : t1 ≠ t2) :
    metricsPath t1 ≠ metricsPath t2 := by
  intro heq
  apply h
  have hd := congrArg String.data heq
  simp only [metricsPath, String.data_append, List.append_assoc] at hd
  exact String.ext (List.append_cancel_right (List.append_cancel_left hd))

/-! Claims -/

/-- C2: every record of the merged table produced by `transform_and_merge`
has a date occurring among the ridership input dates; a date present only in
the weather input never appears in the output; and a ridership date absent
from the weather input appears in the output with null weather fields rather
than being dropped. -/
theorem claim_c2 (r : List RidershipRow) (w : List WeatherRow) :
    (∀ m ∈ transform_and_merge r w, ∃ row ∈ r, row.date = some m.date)
    ∧ (∀ d : Date, (∀ row ∈ r, row.date ≠ some d) →
        ∀ m ∈ transform_and_merge r w, m.date ≠ d)
    ∧ (∀ d : Date, (∃ row ∈ r, row.date = some d) →
        (∀ row ∈ w, row.date ≠ some d) →
        ∃ m ∈ transform_and_merge r w,
          m.date = d ∧ m.temperature_mean = none ∧ m.precipitation = none) := by
  refine ⟨fun m hm => mem_transform_date hm, ?_, ?_⟩
  · intro d hno m hm hmd
    rcases mem_transform_date hm with ⟨row, hrow, hdate⟩
    exact hno row hrow (hmd ▸ hdate)
  · intro d hsome hnow
    rcases hsome with ⟨row, hrow, hdate⟩
    have hclean : d ∈ (cleanRidership r).map Prod.fst := by
      simp only [cleanRidership, List.map_filterMap, List.mem_filterMap]
      exact ⟨row, hrow, by simp [hdate]⟩
    have hdedup := fst_mem_dedupFirst hclean
    simp only [List.mem_map] at hdedup
    rcases hdedup with ⟨p, hp, hpd⟩
    have hfind :
        (dedupFirst (cleanWeather w)).find? (fun q => q.1 = p.1) = none := by
      rw [List.find?_eq_none]
      intro q hq
      rcases mem_cleanWeather (mem_dedupFirst hq) with ⟨wrow, hwrow, hwdate⟩
      simp only [decide_eq_true_eq]
      intro hqd
      exact hnow wrow hwrow (by rw [hwdate, hqd, hpd])
    refine ⟨mkMerged p.1 p.2 none none, ?_, by simp [mkMerged, hpd]⟩
    simp only [transform_and_merge, List.mem_map]
    exact ⟨p, hp, by rw [hfind]⟩

/-- C1: whenever the ridership extraction returns an empty table, the run
ends FAILED with error "No ridership data extracted", no transformation or
loading effect happens (no transformation or loading metrics entry, no CSV
written, no S3 upload, no returned data), and exactly one metrics snapshot
with status FAILED is still written. -/
theorem claim_c1 (env : Env) (sd ed : Option Int) (db : Bool)
    (h : env.fetchRidership (sd.getD (env.now - 365)) (ed.getD env.now)
      = []) :
    (pipelineRun env sd ed db).status = Status.FAILED
    ∧ (pipelineRun env sd ed db).error = some "No ridership data extracted"
    ∧ (pipelineRun env sd ed db).metrics.status = Status.FAILED
    ∧ (pipelineRun env sd ed db).metrics.errors
      = ["No ridership data extracted"]
    ∧ (pipelineRun env sd ed db).metrics.transformation = none
    ∧ (pipelineRun env sd ed db).metrics.loading = none
    ∧ (pipelineRun env sd ed db).savedCsv = []
    ∧ (pipelineRun env sd ed db).s3Uploads = []
    ∧ (pipelineRun env sd ed db).data = none
    ∧ (pipelineRun env sd ed db).savedMetrics
      = [(metricsPath env.timestampStr,
          (pipelineRun env sd ed db).metrics)] := by
  simp [pipelineRun, failResult, initialMetrics, h]

/-- Witness for C1: a concrete environment whose ridership extraction is
empty. -/
theorem claim_c1_witness :
    (pipelineRun envEmptyRidership none none true).status = Status.FAILED
    ∧ (pipelineRun envEmptyRidership none none true).error
      = some "No ridership data extracted"
    ∧ (pipelineRun envEmptyRidership none none true).metrics.status
      = Status.FAILED
    ∧ (pipelineRun envEmptyRidership none none true).metrics.errors
      = ["No ridership data extracted"]
    ∧ (pipelineRun envEmptyRidership none none true).metrics.transformation
      = none
    ∧ (pipelineRun envEmptyRidership none none true).metrics.loading = none
    ∧ (pipelineRun envEmptyRidership none none true).savedCsv = []
    ∧ (pipelineRun envEmptyRidership none none true).s3Uploads = []
    ∧ (pipelineRun envEmptyRidership none none true).data = none
    ∧ (pipelineRun envEmptyRidership none none true).savedMetrics
      = [(metricsPath envEmptyRidership.timestampStr,
          (pipelineRun envEmptyRidership none none true).metrics)] :=
  claim_c1 envEmptyRidership none none true rfl

/-- C4 counterexample: with the current date at day 20000 and a caller
supplying `end_date = 1000` but no `start_date`, the resolved start is
19635 = 20000 − 365, not 635 = resolved end − 365: the code derives the
default start from the current date, never from the supplied end date
(main_pipeline.py line 69). -/
theorem claim_c4_counterexample :
    (pipelineRun envA none (some 1000) true).resolvedRange.1
      ≠ (pipelineRun envA none (some 1000) true).resolvedRange.2 - 365 := by
  decide

/-- C4 as amended: when `end_date` is unspecified it resolves to the current
date, and when `start_date` is unspecified it resolves to the current date
minus 365 days — computed from the current date, regardless of any supplied
`end_date`. -/
theorem claim_c4 (env : Env) (sd ed : Option Int) (db : Bool) :
    (ed = none → (pipelineRun env sd ed db).resolvedRange.2 = env.now)
    ∧ (sd = none →
        (pipelineRun env sd ed db).resolvedRange.1 = env.now - 365) := by
  rw [pipelineRun_resolvedRange]
  exact ⟨fun h => by simp [h], fun h => by simp [h]⟩

/-- Witness for C4 as amended, at a run with both dates unspecified. -/
theorem claim_c4_witness :
    (pipelineRun envA none none true).resolvedRange.2 = envA.now
    ∧ (pipelineRun envA none none true).resolvedRange.1 = envA.now - 365 :=
  ⟨(claim_c4 envA none none true).1 rfl, (claim_c4 envA none none true).2 rfl⟩

/-- C3: on a run where extraction and transformation yield non-empty data
and local CSV persistence succeeds, the run ends SUCCESS whatever the S3
upload does (the environment's `s3UploadFails` is unconstrained, and even
when the upload raises — in which case nothing reaches S3 — the status is
still SUCCESS); and when the database load is requested and
`load_to_postgres` returns false, the run still ends SUCCESS with
`database_success = false` recorded in the loading metrics. -/
theorem claim_c3 (env : Env) (sd ed : Option Int) (db : Bool)
    (hr : env.fetchRidership (sd.getD (env.now - 365)) (ed.getD env.now)
      ≠ [])
    (hw : env.fetchWeather (sd.getD (env.now - 365)) (ed.getD env.now)
      ≠ [])
    (hm : transform_and_merge
        (env.fetchRidership (sd.getD (env.now - 365)) (ed.getD env.now))
        (env.fetchWeather (sd.getD (env.now - 365)) (ed.getD env.now))
      ≠ [])
    (hcsv : env.csvSaveFails = false) :
    (pipelineRun env sd ed db).status = Status.SUCCESS
    ∧ ((pipelineRun env sd ed db).metrics.loading).map
        LoadingMetrics.database_success = some (db && env.postgresSuccess)
    ∧ (env.s3UploadFails = true → (pipelineRun env sd ed db).s3Uploads = [])
    ∧ (db = true → env.postgresSuccess = false →
        ((pipelineRun env sd ed db).metrics.loading).map
          LoadingMetrics.database_success = some false) := by
  have h1 : (env.fetchRidership (sd.getD (env.now - 365))
      (ed.getD env.now)).isEmpty = false := by simp [List.isEmpty_iff, hr]
  have h2 : (env.fetchWeather (sd.getD (env.now - 365))
      (ed.getD env.now)).isEmpty = false := by simp [List.isEmpty_iff, hw]
  have h3 : (transform_and_merge
      (env.fetchRidership (sd.getD (env.now - 365)) (ed.getD env.now))
      (env.fetchWeather (sd.getD (env.now - 365))
        (ed.getD env.now))).isEmpty = false := by
    simp [List.isEmpty_iff, hm]
  refine ⟨?_, ?_, ?_, ?_⟩
  · simp [pipelineRun, h1, h2, h3, hcsv]
  · simp [pipelineRun, h1, h2, h3, hcsv]
  · intro hs3
    simp [pipelineRun, h1, h2, h3, hcsv, hs3]
  · intro hdb hpg
    simp [pipelineRun, h1, h2, h3, hcsv, hdb, hpg]

/-- Witness for C3: spec §8 scenario C — the S3 upload raises and the
database load returns false, yet the run is SUCCESS with
`database_success = false`. -/
theorem claim_c3_witness :
    (pipelineRun envPgFail none none true).status = Status.SUCCESS
    ∧ ((pipelineRun envPgFail none none true).metrics.loading).map
        LoadingMetrics.database_success = some false
    ∧ (pipelineRun envPgFail none none true).s3Uploads = [] := by
  have h := claim_c3 envPgFail none none true (by decide) (by decide)
    (by decide) rfl
  exact ⟨h.1, h.2.2.2 rfl rfl, h.2.2.1 rfl⟩

/-- C5: on every successful run the recorded quality score is
`(1 − total_null_cells / total_cells) × 100` over the merged table and the
recorded success rate is
`len(merged) / max(len(ridership), len(weather)) × 100`, both exactly the
spec-side formulas; the run is SUCCESS with no condition on either value,
so neither gates the status. -/
theorem claim_c5 (env : Env) (sd ed : Option Int) (db : Bool)
    (hr : env.fetchRidership (sd.getD (env.now - 365)) (ed.getD env.now)
      ≠ [])
    (hw : env.fetchWeather (sd.getD (env.now - 365)) (ed.getD env.now)
      ≠ [])
    (hm : transform_and_merge
        (env.fetchRidership (sd.getD (env.now - 365)) (ed.getD env.now))
        (env.fetchWeather (sd.getD (env.now - 365)) (ed.getD env.now))
      ≠ [])
    (hcsv : env.csvSaveFails = false) :
    (pipelineRun env sd ed db).metrics.quality_score
      = some (specQualityScore (transform_and_merge
          (env.fetchRidership (sd.getD (env.now - 365)) (ed.getD env.now))
          (env.fetchWeather (sd.getD (env.now - 365)) (ed.getD env.now))))
    ∧ (pipelineRun env sd ed db).metrics.success_rate
      = some (specSuccessRate
          (env.fetchRidership (sd.getD (env.now - 365))
            (ed.getD env.now)).length
          (env.fetchWeather (sd.getD (env.now - 365))
            (ed.getD env.now)).length
          (transform_and_merge
            (env.fetchRidership (sd.getD (env.now - 365)) (ed.getD env.now))
            (env.fetchWeather (sd.getD (env.now - 365))
              (ed.getD env.now))).length)
    ∧ (pipelineRun env sd ed db).status = Status.SUCCESS := by
  have h1 : (env.fetchRidership (sd.getD (env.now - 365))
      (ed.getD env.now)).isEmpty = false := by simp [List.isEmpty_iff, hr]
  have h2 : (env.fetchWeather (sd.getD (env.now - 365))
      (ed.getD env.now)).isEmpty = false := by simp [List.isEmpty_iff, hw]
  have h3 : (transform_and_merge
      (env.fetchRidership (sd.getD (env.now - 365)) (ed.getD env.now))
      (env.fetchWeather (sd.getD (env.now - 365))
        (ed.getD env.now))).isEmpty = false := by
    simp [List.isEmpty_iff, hm]
  refine ⟨?_, ?_, ?_⟩
  · simp [pipelineRun, specQualityScore, h1, h2, h3, hcsv]
  · simp [pipelineRun, specSuccessRate, h1, h2, h3, hcsv]
  · simp [pipelineRun, h1, h2, h3, hcsv]

/-- Witness for C5 at spec §8 scenario A data (two null cells out of
eighteen). -/
theorem claim_c5_witness :
    (pipelineRun envA none none true).metrics.quality_score
      = some (specQualityScore (transform_and_merge sampleR sampleW))
    ∧ (pipelineRun envA none none true).metrics.success_rate
      = some (specSuccessRate sampleR.length sampleW.length
          (transform_and_merge sampleR sampleW).length)
    ∧ (pipelineRun envA none none true).status = Status.SUCCESS := by
  have h := claim_c5 envA none none true (by decide) (by decide)
    (by decide) rfl
  exact ⟨h.1, h.2.1, h.2.2⟩

/-- C6: every run, on either outcome branch, writes exactly one metrics
snapshot, at the timestamp-derived path, whose recorded status is the run's
final status (SUCCESS or FAILED); and snapshot paths of runs with distinct
save-time timestamps are distinct, so no prior run's file is overwritten. -/
theorem claim_c6 (env : Env) (sd ed : Option Int) (db : Bool) (t2 : String)
    (hne : env.timestampStr ≠ t2) :
    (pipelineRun env sd ed db).savedMetrics
      = [(metricsPath env.timestampStr, (pipelineRun env sd ed db).metrics)]
    ∧ (pipelineRun env sd ed db).metrics.status
      = (pipelineRun env sd ed db).status
    ∧ ((pipelineRun env sd ed db).status = Status.SUCCESS
        ∨ (pipelineRun env sd ed db).status = Status.FAILED)
    ∧ metricsPath env.timestampStr ≠ metricsPath t2 :=
  ⟨(pipelineRun_saved env sd ed db).1, (pipelineRun_saved env sd ed db).2,
    pipelineRun_status env sd ed db, metricsPath_injective hne⟩

/-- Witness for C6: a concrete run and a distinct prior timestamp. -/
theorem claim_c6_witness :
    (pipelineRun envA none none true).savedMetrics
      = [(metricsPath envA.timestampStr,
          (pipelineRun envA none none true).metrics)]
    ∧ (pipelineRun envA none none true).metrics.status
      = (pipelineRun envA none none true).status
    ∧ ((pipelineRun envA none none true).status = Status.SUCCESS
        ∨ (pipelineRun envA none none true).status = Status.FAILED)
    ∧ metricsPath envA.timestampStr ≠ metricsPath "20240101_120001" :=
  claim_c6 envA none none true "20240101_120001" (by decide)

/-- C7, code behaviour at the divergence: on every successful run the
persisted metrics contain no extraction entry at all — `extraction_time` is
initialised to 0 (line 55) and never updated, and `extraction_start`
(line 78) is never read — and the recorded `total_duration_seconds` is the
sum of only the transformation and loading durations. -/
theorem claim_c7_code_behavior (env : Env) (sd ed : Option Int) (db : Bool)
    (hr : env.fetchRidership (sd.getD (env.now - 365)) (ed.getD env.now)
      ≠ [])
    (hw : env.fetchWeather (sd.getD (env.now - 365)) (ed.getD env.now)
      ≠ [])
    (hm : transform_and_merge
        (env.fetchRidership (sd.getD (env.now - 365)) (ed.getD env.now))
        (env.fetchWeather (sd.getD (env.now - 365)) (ed.getD env.now))
      ≠ [])
    (hcsv : env.csvSaveFails = false) :
    (pipelineRun env sd ed db).status = Status.SUCCESS
    ∧ (pipelineRun env sd ed db).metrics.extraction = none
    ∧ (pipelineRun env sd ed db).metrics.total_duration_seconds
      = some (env.transformDuration + env.loadDuration) := by
  have h1 : (env.fetchRidership (sd.getD (env.now - 365))
      (ed.getD env.now)).isEmpty = false := by simp [List.isEmpty_iff, hr]
  have h2 : (env.fetchWeather (sd.getD (env.now - 365))
      (ed.getD env.now)).isEmpty = false := by simp [List.isEmpty_iff, hw]
  have h3 : (transform_and_merge
      (env.fetchRidership (sd.getD (env.now - 365)) (ed.getD env.now))
      (env.fetchWeather (sd.getD (env.now - 365))
        (ed.getD env.now))).isEmpty = false := by
    simp [List.isEmpty_iff, hm]
  refine ⟨?_, ?_, ?_⟩
  · simp [pipelineRun, h1, h2, h3, hcsv]
  · simp [pipelineRun, initialMetrics, h1, h2, h3, hcsv]
  · simp [pipelineRun, h1, h2, h3, hcsv]

/-- Witness for C7's code behaviour: a successful concrete run with
transformation duration 2s and loading duration 3s records total 5s and no
extraction entry. -/
theorem claim_c7_code_behavior_witness :
    (pipelineRun envA none none true).status = Status.SUCCESS
    ∧ (pipelineRun envA none none true).metrics.extraction = none
    ∧ (pipelineRun envA none none true).metrics.total_duration_seconds
      = some (envA.transformDuration + envA.loadDuration) :=
  claim_c7_code_behavior envA none none true (by decide) (by decide)
    (by decide) rfl

/-- C8: every record served by `load_data`, on either the cache branch or
the fresh-fetch branch, carries derived calendar fields equal to the values
recomputed purely from its date. -/
theorem claim_c8 (cacheExists : Bool) (cached : List MergedRow)
    (r : List RidershipRow) (w : List WeatherRow) :
    ∀ m ∈ (load_data cacheExists cached r w).1,
      m.year = m.date.year ∧ m.month = m.date.month
      ∧ m.month_name = monthName m.date.month
      ∧ m.day_name = dayName m.date
      ∧ m.year_month = yearMonthStr m.date := by
  intro m hm
  have hfields : ∀ l : List MergedRow, m ∈ addDerivedFields l →
      m.year = m.date.year ∧ m.month = m.date.month
      ∧ m.month_name = monthName m.date.month
      ∧ m.day_name = dayName m.date
      ∧ m.year_month = yearMonthStr m.date := by
    intro l hl
    simp only [addDerivedFields, List.mem_map] at hl
    rcases hl with ⟨m0, _, hm0⟩
    subst hm0
    exact ⟨rfl, rfl, rfl, rfl, rfl⟩
  cases cacheExists with
  | true => exact hfields cached (by simpa [load_data] using hm)
  | false =>
    exact hfields (transform_and_merge r w) (by simpa [load_data] using hm)

/-- Witness for C8: a stale cached row whose stored calendar fields all
disagree with its date is served with them recomputed from the date. -/
theorem claim_c8_witness :
    refreshedRow.year = refreshedRow.date.year
    ∧ refreshedRow.month = refreshedRow.date.month
    ∧ refreshedRow.month_name = monthName refreshedRow.date.month
    ∧ refreshedRow.day_name = dayName refreshedRow.date
    ∧ refreshedRow.year_month = yearMonthStr refreshedRow.date :=
  claim_c8 true [staleCachedRow] [] [] refreshedRow (by decide)

/-- C9: the CLI exits 0 exactly when the run's status is SUCCESS and 1
exactly when it is FAILED, and on FAILED the printed summary contains the
error message line. -/
theorem claim_c9 (env : Env) (args : CliArgs) :
    ((mainModel env args).exitCode = 0
      ↔ (pipelineRun env args.start_date args.end_date
          (!args.no_db)).status = Status.SUCCESS)
    ∧ ((mainModel env args).exitCode = 1
      ↔ (pipelineRun env args.start_date args.end_date
          (!args.no_db)).status = Status.FAILED)
    ∧ ((pipelineRun env args.start_date args.end_date
          (!args.no_db)).status = Status.FAILED →
        ("Error: " ++ (pipelineRun env args.start_date args.end_date
          (!args.no_db)).error.getD "Unknown error")
          ∈ (mainModel env args).printed) := by
  rcases pipelineRun_status env args.start_date args.end_date (!args.no_db)
    with h | h
  · refine ⟨by simp [mainModel, h], by simp [mainModel, h], ?_⟩
    intro hf
    rw [h] at hf
    exact absurd hf (by simp)
  · refine ⟨by simp [mainModel, h], by simp [mainModel, h], ?_⟩
    intro _
    have hne : (pipelineRun env args.start_date args.end_date
        (!args.no_db)).status ≠ Status.SUCCESS := by simp [h]
    simp [mainModel, hne]

/-- Witness for C9: the CLI over a run whose ridership extraction is empty
exits 1 and prints the error message. -/
theorem claim_c9_witness :
    (mainModel envEmptyRidership ⟨none, none, false⟩).exitCode = 1
    ∧ ("Error: " ++ (pipelineRun envEmptyRidership none none
        true).error.getD "Unknown error")
      ∈ (mainModel envEmptyRidership ⟨none, none, false⟩).printed := by
  have h := claim_c9 envEmptyRidership ⟨none, none, false⟩
  exact ⟨h.2.1.mpr (by decide), h.2.2 (by decide)⟩

/-- C10: when the cached merge artifact exists, `load_data` returns the
cached table (with calendar columns recomputed) paired with the quality
report of a freshly constructed Transformer on which `transform_and_merge`
was never invoked — a report with no entries, describing no dataset, in
particular not the cached merged data. -/
theorem claim_c10 (cached : List MergedRow) (r : List RidershipRow)
    (w : List WeatherRow) :
    (load_data true cached r w).1 = addDerivedFields cached
    ∧ (load_data true cached r w).2 = emptyQualityReport
    ∧ (load_data true cached r w).2.entries = [] := by
  simp [load_data, emptyQualityReport]

/-- Witness for C2 at spec §8 scenario A plus a weather-only date:
2024-01-03 appears only in weather and is absent from the output; 2024-01-02
is a ridership date absent from weather and appears with null weather
fields. -/
theorem claim_c2_witness :
    ((∃ row ∈ sampleR, row.date = some ⟨2024, 1, 2⟩)
      ∧ (∀ row ∈ sampleW, row.date ≠ some ⟨2024, 1, 2⟩))
    ∧ ∃ m ∈ transform_and_merge sampleR sampleW,
        m.date = ⟨2024, 1, 2⟩ ∧ m.temperature_mean = none
          ∧ m.precipitation = none :=
  ⟨⟨by decide, by decide⟩,
    (claim_c2 sampleR sampleW).2.2 ⟨2024, 1, 2⟩ (by decide) (by decide)⟩

end NycTransit
